import Mathlib

/-!
Verification of the service-discovery core of the `kit` repository.

Each definition below is a shallow embedding of a function of the Go
source (file and lines are cited in the doc comments).  Stateful code is
embedded either as explicit state passing (for single-threaded claims) or
as a deterministic small-step transition system driven by an explicit
schedule of thread identifiers (for claims about the background
goroutines).  Go channels are modelled by a closed-flag arena; `close` of
a nil channel is modelled as the Go runtime panic it raises.
-/

/-- Error values (Go `error`) are modelled as strings. -/
abbrev Err := String

/-- Go runtime panics relevant to this code base. -/
inductive GoPanic
  | closeNilChannel
  | closeClosedChannel
  deriving DecidableEq, Repr

/-! ### periodicRegistrar, sequential embedding

Source: `src/sd/periodic_registrar.go`.  The struct holds
`quitc chan struct{}`; we model the field as `Option Bool` where `none`
is the nil field and `some b` a channel whose closed-flag is `b`. -/

/-- State of a `periodicRegistrar` (src/sd/periodic_registrar.go lines 8-12):
the `quitc` field, `none` when nil, `some closed?` when it holds a channel. -/
structure PeriodicRegistrar where
  quitc : Option Bool
  deriving DecidableEq, Repr

/-- `NewPeriodicRegistrar` (lines 14-19): the `quitc` field is left nil. -/
def NewPeriodicRegistrar : PeriodicRegistrar := { quitc := none }

/-- `periodicRegistrar.Register` (lines 21-29): if `p.quitc != nil` return
immediately; otherwise allocate the channel and spawn the loop goroutine.
The returned Bool records whether a new loop goroutine was spawned. -/
def PeriodicRegistrar.Register (p : PeriodicRegistrar) : PeriodicRegistrar × Bool :=
  if p.quitc.isSome then (p, false)
  else ({ quitc := some false }, true)

/-- `periodicRegistrar.Deregister` (lines 43-48): `close(p.quitc)` — a Go
panic when the field is nil or the channel already closed — then
`p.quitc = nil`, then one call of the underlying `Deregister` (the
returned Nat counts those calls). -/
def PeriodicRegistrar.Deregister (p : PeriodicRegistrar) :
    Except GoPanic (PeriodicRegistrar × Nat) :=
  match p.quitc with
  | none => Except.error GoPanic.closeNilChannel
  | some true => Except.error GoPanic.closeClosedChannel
  | some false => Except.ok ({ quitc := none }, 1)

/-! ### periodicRegistrar, thread-interleaved embedding

A deterministic small-step system.  The main thread executes a scripted
list of calls (`Register` is one atomic step, `Deregister` is split into
its three statements: `close(p.quitc)`, `p.quitc = nil`, underlying
`Deregister()`).  Each loop goroutine step models one completed `select`
of `periodicRegistrar.loop` (lines 31-41): when the field holds a closed
channel the quit case fires and the goroutine returns; otherwise the quit
case is not ready (a nil or open channel) and the `time.After` case
eventually fires, calling the underlying `Register()` once.  A schedule
is a list of thread identifiers; a step of a blocked or finished thread
is a no-op. -/

/-- A call the scripted main thread may perform on the periodicRegistrar. -/
inductive PCall
  | register
  | deregister
  deriving DecidableEq, Repr

/-- Thread identifier: the main thread, or loop goroutine number `i`. -/
inductive PTid
  | main
  | loop (i : Nat)
  deriving DecidableEq, Repr

/-- Configuration of the interleaved periodicRegistrar system.
`chans` is the arena of quit channels (closed-flag per channel id),
`quitc` the `p.quitc` field, `calls`/`micro` the main thread's remaining
scripted calls and position inside the current call, `loopPcs` the loop
goroutines (`true` = still running), `hb` the number of underlying
`Register()` calls made by loops, `ud` the number of underlying
`Deregister()` calls made by main. -/
structure PConfig where
  chans : List Bool
  quitc : Option Nat
  calls : List PCall
  micro : Nat
  panicked : Bool
  loopPcs : List Bool
  hb : Nat
  ud : Nat
  deriving DecidableEq, Repr

/-- One step of the main thread.  `Register` (lines 21-29) is a single
step: guard on `p.quitc != nil`, else make the channel, store it and
spawn a loop goroutine.  `Deregister` (lines 43-48) takes three steps:
micro 0 is `close(p.quitc)` (panicking on a nil or closed channel),
micro 1 is `p.quitc = nil`, micro 2 is the underlying `Deregister()`. -/
def pstepMain (c : PConfig) : PConfig :=
  if c.panicked then c else
  match c.calls with
  | [] => c
  | PCall.register :: rest =>
      if c.quitc.isSome then { c with calls := rest, micro := 0 }
      else { c with chans := c.chans ++ [false],
                    quitc := some c.chans.length,
                    loopPcs := c.loopPcs ++ [true],
                    calls := rest, micro := 0 }
  | PCall.deregister :: rest =>
      match c.micro, c.quitc with
      | 0, none => { c with panicked := true }
      | 0, some cid =>
          if c.chans.getD cid false then { c with panicked := true }
          else { c with chans := c.chans.set cid true, micro := 1 }
      | 1, _ => { c with quitc := none, micro := 2 }
      | _, _ => { c with ud := c.ud + 1, calls := rest, micro := 0 }

/-- One step of loop goroutine `i`: one resolved `select` of
`periodicRegistrar.loop` (lines 31-41).  The quit case fires exactly when
the field holds a closed channel, and the goroutine returns; otherwise
the timer case fires and the underlying `Register()` is called. -/
def pstepLoop (c : PConfig) (i : Nat) : PConfig :=
  if c.panicked then c else
  if c.loopPcs.getD i false then
    match c.quitc with
    | some cid =>
        if c.chans.getD cid false then { c with loopPcs := c.loopPcs.set i false }
        else { c with hb := c.hb + 1 }
    | none => { c with hb := c.hb + 1 }
  else c

/-- Dispatch one step to the scheduled thread. -/
def pstep (c : PConfig) : PTid → PConfig
  | PTid.main => pstepMain c
  | PTid.loop i => pstepLoop c i

/-- Run a schedule (list of thread identifiers) from a configuration. -/
def prun (c : PConfig) : List PTid → PConfig
  | [] => c
  | t :: ts => prun (pstep c t) ts

/-- Initial configuration: the state right after `NewPeriodicRegistrar`
(lines 14-19), with the main thread about to perform `prog`. -/
def pinit (prog : List PCall) : PConfig :=
  { chans := [], quitc := none, calls := prog, micro := 0,
    panicked := false, loopPcs := [], hb := 0, ud := 0 }

/-- Configuration reached by letting main run `Register()` and then all
three statements of `Deregister()` before the loop goroutine is ever
scheduled. -/
def pDeregCfg : PConfig :=
  prun (pinit [PCall.register, PCall.deregister])
    [PTid.main, PTid.main, PTid.main, PTid.main]

/-- Configuration reached by two consecutive `Register()` calls. -/
def pRegRegCfg : PConfig :=
  prun (pinit [PCall.register, PCall.register]) [PTid.main, PTid.main]

/-- No schedule ever changes the set of running loop goroutines from
configuration `c` (in particular no loop goroutine ever terminates). -/
def pLoopNeverStops (c : PConfig) : Prop :=
  ∀ σ : List PTid, (prun c σ).loopPcs = c.loopPcs

/-! ### eureka subscriber, thread-interleaved embedding

Source: `src/sd/eureka/subscriber.go`.  Three threads: the main thread
(scripted `Stop()` calls, lines 53-60, split into its statements), the
`subscriber.loop` goroutine (lines 34-47) and the `client.WatchEntries`
goroutine it spawns (the watcher; `client.go` lines 305-319 embedded at
the granularity this claim needs: it forwards pending backend updates to
the `entries` channel until it observes its `done` channel closed).
`Stop` reads and nils the unsynchronised `s.quitc` field, while the loop
re-evaluates the field at every `select` and passes its current value to
`WatchEntries` when it starts; both reads are modelled exactly so. -/

/-- A call the scripted main thread may perform on the subscriber. -/
inductive SCall
  | stop
  deriving DecidableEq, Repr

/-- Thread identifier for the subscriber system. -/
inductive STid
  | main
  | loop
  | watcher
  deriving DecidableEq, Repr

/-- Program counter of the `subscriber.loop` goroutine: before its first
statement, blocked at/looping through its `select`, or returned. -/
inductive LoopPc
  | start
  | atSelect
  | exited
  deriving DecidableEq, Repr

/-- Program counter of the watcher (`client.WatchEntries`) goroutine. -/
inductive WatcherPc
  | idle
  | run
  | exited
  deriving DecidableEq, Repr

/-- Configuration of the interleaved subscriber system.  `chans` is the
quit-channel arena, `quitc` the `s.quitc` field, `calls`/`micro` the
scripted main thread, `watcherDone` the `done` argument the watcher was
given (latched when the loop spawned it), `stream` the address lists the
discovery backend will push, `entriesQ` the messages in flight on the
`entries` channel, and `cacheUpdates` the argument log of the
`s.cache.Update` calls made so far. -/
structure SConfig where
  chans : List Bool
  quitc : Option Nat
  calls : List SCall
  micro : Nat
  panicked : Bool
  loopPc : LoopPc
  watcherPc : WatcherPc
  watcherDone : Option Nat
  stream : List (List String)
  entriesQ : List (List String)
  cacheUpdates : List (List String)
  deriving DecidableEq, Repr

/-- One step of the main thread running `subscriber.Stop` (lines 53-60):
micro 0 is the `s.quitc == nil` guard, micro 1 is `close(s.quitc)`,
micro 2 is `s.quitc = nil` and the return. -/
def sstepMain (c : SConfig) : SConfig :=
  if c.panicked then c else
  match c.calls with
  | [] => c
  | SCall.stop :: rest =>
      match c.micro with
      | 0 =>
          match c.quitc with
          | none => { c with calls := rest, micro := 0 }
          | some _ => { c with micro := 1 }
      | 1 =>
          match c.quitc with
          | none => { c with panicked := true }
          | some cid =>
              if c.chans.getD cid false then { c with panicked := true }
              else { c with chans := c.chans.set cid true, micro := 2 }
      | _ => { c with quitc := none, calls := rest, micro := 0 }

/-- One step of the `subscriber.loop` goroutine (lines 34-47).  Its first
step creates the `entries` channel and spawns the watcher, passing it the
current value of the `s.quitc` field.  Each later step is one resolved
`select`: the quit case fires exactly when the field currently holds a
closed channel (the goroutine then returns); otherwise a pending message
on `entries`, if any, is received and passed to `s.cache.Update`; with
neither ready the goroutine stays blocked. -/
def sstepLoop (c : SConfig) : SConfig :=
  if c.panicked then c else
  match c.loopPc with
  | LoopPc.start =>
      { c with watcherDone := c.quitc, watcherPc := WatcherPc.run,
               loopPc := LoopPc.atSelect }
  | LoopPc.atSelect =>
      match c.quitc with
      | some cid =>
          if c.chans.getD cid false then { c with loopPc := LoopPc.exited }
          else
            match c.entriesQ with
            | [] => c
            | e :: q => { c with entriesQ := q, cacheUpdates := c.cacheUpdates ++ [e] }
      | none =>
          match c.entriesQ with
          | [] => c
          | e :: q => { c with entriesQ := q, cacheUpdates := c.cacheUpdates ++ [e] }
  | LoopPc.exited => c

/-- One step of the watcher goroutine (`client.WatchEntries`, client.go
lines 305-319): it returns once the `done` channel it was handed is a
closed channel; otherwise it forwards the next pending backend update to
the `entries` channel; a nil `done` is never ready. -/
def sstepWatcher (c : SConfig) : SConfig :=
  if c.panicked then c else
  match c.watcherPc with
  | WatcherPc.run =>
      match c.watcherDone with
      | some cid =>
          if c.chans.getD cid false then { c with watcherPc := WatcherPc.exited }
          else
            match c.stream with
            | [] => c
            | u :: us => { c with stream := us, entriesQ := c.entriesQ ++ [u] }
      | none =>
          match c.stream with
          | [] => c
          | u :: us => { c with stream := us, entriesQ := c.entriesQ ++ [u] }
  | _ => c

/-- Dispatch one step to the scheduled thread. -/
def sstep (c : SConfig) : STid → SConfig
  | STid.main => sstepMain c
  | STid.loop => sstepLoop c
  | STid.watcher => sstepWatcher c

/-- Run a schedule from a configuration. -/
def srun (c : SConfig) : List STid → SConfig
  | [] => c
  | t :: ts => srun (sstep c t) ts

/-- Initial configuration: the state right after `NewSubscriber`
(lines 19-32) returned — quit channel made, initial empty
`cache.Update([])` performed, loop goroutine spawned but not yet
scheduled — with the backend about to push `stream` and the main thread
about to call `Stop()` twice. -/
def sinit (stream : List (List String)) : SConfig :=
  { chans := [false], quitc := some 0, calls := [SCall.stop, SCall.stop],
    micro := 0, panicked := false, loopPc := LoopPc.start,
    watcherPc := WatcherPc.idle, watcherDone := none, stream := stream,
    entriesQ := [], cacheUpdates := [[]] }

/-- Configuration reached when both scripted `Stop()` calls complete
before the loop goroutine first runs, after which the loop takes its
first step. -/
def sStopCfg : SConfig :=
  srun (sinit [])
    [STid.main, STid.main, STid.main, STid.main, STid.loop]

/-- No schedule ever moves the loop goroutine from configuration `c`
(in particular it never exits). -/
def sLoopNeverExits (c : SConfig) : Prop :=
  ∀ σ : List STid, (srun c σ).loopPc = c.loopPc

/-! ### Cache (spec-modelled) and the eureka subscriber, sequential embedding -/

/-- Modelled from the spec: the `sd/cache` package (`cache.New`,
`Cache.Update`, `Cache.Endpoints`) is referenced by
`src/sd/eureka/subscriber.go` but its source is not under `src/`.
Following spec sections 3 and 4.1: the cache holds the caller-supplied
factory and a mapping from instance address to the endpoint the factory
produced for it (resource handles are omitted — no claim here concerns
them). -/
structure Cache (E : Type) where
  factory : String → Except Err E
  entries : List (String × E)

/-- Modelled from the spec: `cache.New(factory, logger)` — a cache is
created empty. -/
def Cache.New {E : Type} (factory : String → Except Err E) : Cache E :=
  { factory := factory, entries := [] }

/-- Modelled from the spec (section 4.1): `Update(addresses)` keeps the
entries whose address is still listed, drops the rest, and runs the
factory for each newly listed address, skipping addresses on which the
factory fails. -/
def Cache.Update {E : Type} (c : Cache E) (addresses : List String) : Cache E :=
  { c with entries :=
      (c.entries.filter (fun kv => addresses.contains kv.1) ++
        (addresses.filter (fun a => !(c.entries.any (fun kv => kv.1 == a)))).filterMap
          (fun a =>
            match c.factory a with
            | Except.ok e => some (a, e)
            | Except.error _ => none)) }

/-- Modelled from the spec (section 4.1): `Endpoints()` returns the
current snapshot — the endpoints of the current entries. -/
def Cache.Endpoints {E : Type} (c : Cache E) : List E := c.entries.map (fun kv => kv.2)

/-- State of a `subscriber` (src/sd/eureka/subscriber.go lines 10-15):
service name, the owned cache, and the `quitc` field (`none` when nil,
`some closed?` otherwise). -/
structure Subscriber (E : Type) where
  name : String
  cache : Cache E
  quitc : Option Bool

/-- Construction events observable in `NewSubscriber` (lines 19-32), in
source order. -/
inductive SubEvent
  | cacheUpdate (addresses : List String)
  | loopStart
  deriving DecidableEq, Repr

/-- `NewSubscriber` (lines 19-32): build the struct with a fresh cache
and quit channel, perform `s.cache.Update([]string{})`, then spawn the
loop goroutine.  Returns the constructed subscriber together with the
ordered list of construction events. -/
def NewSubscriber {E : Type} (name : String) (factory : String → Except Err E) :
    Subscriber E × List SubEvent :=
  let c := (Cache.New factory).Update []
  ({ name := name, cache := c, quitc := some false },
   [SubEvent.cacheUpdate [], SubEvent.loopStart])

/-- `subscriber.Endpoints` (lines 49-51): `return s.cache.Endpoints(), nil`. -/
def Subscriber.Endpoints {E : Type} (s : Subscriber E) : List E × Option Err :=
  (s.cache.Endpoints, none)

/-- `subscriber.Stop` (lines 53-60): return if the field is nil,
otherwise `close(s.quitc)` (a Go panic if that channel were already
closed) and nil the field. -/
def Subscriber.Stop {E : Type} (s : Subscriber E) : Except GoPanic (Subscriber E) :=
  match s.quitc with
  | none => Except.ok s
  | some true => Except.error GoPanic.closeClosedChannel
  | some false => Except.ok { s with quitc := none }

/-! ### eureka registrar

Source: `src/unnamed/part_001` (package eureka, type `registrar`).  The
client is abstracted by the outcome of `client.Register(r.service)` /
`client.Deregister(r.service)`; the logger is an accumulated list of
entries. -/

/-- A `Service` record (client.go lines 229-236). -/
structure Service where
  ID : String
  Name : String
  Address : String
  Port : Nat
  Metadata : List (String × String)
  TTL : Nat
  deriving DecidableEq, Repr

/-- One structured log line written by the registrar: either
`logger.Log("err", err)` or `logger.Log("action", ...)`. -/
inductive LogEntry
  | logErr (e : Err)
  | logAction (a : String)
  deriving DecidableEq, Repr

/-- A `registrar` (part_001 lines 8-20): the service it announces and the
outcome the underlying registry client gives for its `Register` and
`Deregister` calls. -/
structure Registrar where
  clientRegister : Service → Option Err
  clientDeregister : Service → Option Err
  service : Service

/-- `registrar.Register` (part_001 lines 22-28): run the client call; on
error log `("err", err)`, else log `("action", "register")`; return
nothing (Unit) — no error can reach the caller. -/
def Registrar.Register (r : Registrar) : Unit × List LogEntry :=
  match r.clientRegister r.service with
  | some e => ((), [LogEntry.logErr e])
  | none => ((), [LogEntry.logAction "register"])

/-- `registrar.Deregister` (part_001 lines 30-36): same shape with
`("action", "deregister")`. -/
def Registrar.Deregister (r : Registrar) : Unit × List LogEntry :=
  match r.clientDeregister r.service with
  | some e => ((), [LogEntry.logErr e])
  | none => ((), [LogEntry.logAction "deregister"])

/-! ### static publisher

Source: `src/unnamed/part_008` (package static, `NewPublisher`). -/

/-- `static.NewPublisher` (part_008 lines 14-26): iterate over the
instance addresses in order; on a factory error log the instance and the
error and continue, otherwise append the endpoint.  Returns the endpoint
list and the log of skipped instances. -/
def static.NewPublisher {E : Type} (factory : String → Except Err E) :
    List String → List E × List (String × Err)
  | [] => ([], [])
  | i :: rest =>
    let r := static.NewPublisher factory rest
    match factory i with
    | Except.error e => (r.1, (i, e) :: r.2)
    | Except.ok ep => (ep :: r.1, r.2)

/-- A concrete factory that fails on address "b" only. -/
def exFactory : String → Except Err String :=
  fun i => if i == "b" then Except.error "boom" else Except.ok ("ep-" ++ i)

/-! ### eureka client against the registry

Source: the client half of `src/sd/eureka/client_test.go` (the file holds
the test and, after the document separator, `client.go` itself:
`client.Register`, `client.Deregister`, `client.GetEntries`,
`client.WatchEntries`, `serviceToInstance`, `appToEntries`).  The
connection behind the client is embedded with the registry semantics of
`mockConn` from the same file (entries keyed by host name, heartbeat
counters). -/

/-- The fields of a `fargo.Instance` this code reads or writes
(`serviceToInstance`, `appToEntries`, `mockConn`). -/
structure Instance where
  App : String
  HostName : String
  Port : Nat
  deriving DecidableEq, Repr

/-- `serviceToInstance` (client.go lines 344-371), restricted to the
fields the registry semantics consults. -/
def serviceToInstance (s : Service) : Instance :=
  { App := s.Name, HostName := s.Address, Port := s.Port }

/-- A `registryEntry` (client_test.go lines 140-143). -/
structure RegEntry where
  inst : Instance
  heartbeats : Nat
  deriving DecidableEq, Repr

/-- A `mockConn` (client_test.go lines 145-148): the registry. -/
structure MockConn where
  registry : List RegEntry
  deriving DecidableEq, Repr

/-- `mockConn.instances` (client_test.go lines 166-174): the instances
registered under a given application name. -/
def MockConn.instances (mc : MockConn) (name : String) : List Instance :=
  (mc.registry.filter (fun e => e.inst.App == name)).map (fun e => e.inst)

/-- `mockConn.GetApp` (client_test.go lines 176-182): error when no
instance carries the name. -/
def MockConn.GetApp (mc : MockConn) (name : String) : Except Err (List Instance) :=
  match mc.instances name with
  | [] => Except.error "App not registered"
  | is => Except.ok is

/-- `mockConn.entry` (client_test.go lines 157-164) reduced to the
membership test: is some entry keyed by this host name? -/
def hasEntry (reg : List RegEntry) (i : Instance) : Bool :=
  reg.any (fun e => e.inst.HostName == i.HostName)

/-- `mockConn.RegisterInstance` (client_test.go lines 184-191): error if
the host name is already present, else append a fresh entry with zero
heartbeats. -/
def MockConn.RegisterInstance (mc : MockConn) (i : Instance) : Except Err MockConn :=
  if hasEntry mc.registry i then Except.error "Instance already registerd"
  else Except.ok { registry := mc.registry ++ [{ inst := i, heartbeats := 0 }] }

/-- Helper for `mockConn.HeartBeatInstance`: bump the heartbeat counter
of the first entry keyed by the instance's host name, `none` if absent. -/
def heartBeatAux (reg : List RegEntry) (i : Instance) : Option (List RegEntry) :=
  match reg with
  | [] => none
  | e :: rest =>
      if e.inst.HostName == i.HostName then
        some ({ e with heartbeats := e.heartbeats + 1 } :: rest)
      else (heartBeatAux rest i).map (fun r => e :: r)

/-- `mockConn.HeartBeatInstance` (client_test.go lines 202-209). -/
def MockConn.HeartBeatInstance (mc : MockConn) (i : Instance) : Except Err MockConn :=
  match heartBeatAux mc.registry i with
  | none => Except.error "Instance not registered"
  | some reg => Except.ok { registry := reg }

/-- `appToEntries` (client.go lines 336-342): `HostName:Port` strings. -/
def appToEntries (instances : List Instance) : List String :=
  instances.map (fun i => i.HostName ++ ":" ++ toString i.Port)

/-- `client.GetEntries` (client.go lines 296-303). -/
def client.GetEntries (mc : MockConn) (name : String) : Except Err (List String) :=
  match mc.GetApp name with
  | Except.error e => Except.error e
  | Except.ok is => Except.ok (appToEntries is)

/-- `client.Register` (client.go lines 321-330): if `GetEntries` for the
service name succeeds, call `HeartBeatInstance` with its error ignored
and return nil; otherwise return the result of `RegisterInstance`.  The
pair is (connection after the call, returned error). -/
def client.Register (mc : MockConn) (s : Service) : MockConn × Option Err :=
  let i := serviceToInstance s
  match client.GetEntries mc s.Name with
  | Except.ok _ =>
      (match mc.HeartBeatInstance i with
       | Except.ok mc1 => (mc1, none)
       | Except.error _ => (mc, none))
  | Except.error _ =>
      (match mc.RegisterInstance i with
       | Except.ok mc1 => (mc1, none)
       | Except.error e => (mc, some e))

/-- One update received from the backend watch stream
(`fargo.AppUpdate`): the application's instances and an optional error. -/
structure AppUpdate where
  app : List Instance
  err : Option Err
  deriving DecidableEq, Repr

/-- `client.WatchEntries` (client.go lines 305-319), sequentialised over
a finite backend stream: the list of address lists sent to the `entries`
sink, one send per received update — an empty list for an update carrying
an error, `appToEntries` of the application otherwise. -/
def client.WatchEntriesSends : List AppUpdate → List (List String)
  | [] => []
  | u :: us =>
      (match u.err with
       | some _ => []
       | none => appToEntries u.app) :: client.WatchEntriesSends us

/-- Sum of all heartbeat counters in a registry. -/
def totalHeartbeats (reg : List RegEntry) : Nat :=
  (reg.map (fun e => e.heartbeats)).sum

/-- The service of `TestRegister` (client_test.go lines 14-47, 129-138). -/
def testService : Service :=
  { ID := "id", Name := "name", Address := "address", Port := 0,
    Metadata := [("key", "value")], TTL := 987 }

/-! ### Helper lemmas -/

/-- Once the `quitc` field is nil and the main thread has no calls left,
no step of any thread changes `quitc`, `calls` or the loop goroutines. -/
theorem pstep_preserve_of_none (c : PConfig) (h1 : c.quitc = none) (h2 : c.calls = [])
    (t : PTid) :
    (pstep c t).quitc = none ∧ (pstep c t).calls = [] ∧ (pstep c t).loopPcs = c.loopPcs := by
  cases t with
  | main =>
      simp [pstep, pstepMain, h1, h2]
  | loop i =>
      have hd : pstep c (PTid.loop i) = pstepLoop c i := rfl
      rw [hd]
      unfold pstepLoop
      split_ifs with hp hl
      · exact ⟨h1, h2, rfl⟩
      · rw [h1]
        exact ⟨rfl, h2, rfl⟩
      · exact ⟨h1, h2, rfl⟩

/-- Under the conditions of `pstep_preserve_of_none`, no schedule changes
the loop goroutines. -/
theorem prun_preserve_of_none (σ : List PTid) :
    ∀ c : PConfig, c.quitc = none → c.calls = [] →
      (prun c σ).loopPcs = c.loopPcs := by
  induction σ with
  | nil => intro c _ _; rfl
  | cons t ts ih =>
      intro c h1 h2
      have h := pstep_preserve_of_none c h1 h2 t
      show (prun (pstep c t) ts).loopPcs = c.loopPcs
      rw [ih (pstep c t) h.1 h.2.1, h.2.2]

/-- A single running loop goroutine whose quit channel is open performs
one underlying `Register()` call per scheduled step. -/
theorem prun_heartbeats (k : Nat) :
    ∀ c : PConfig, c.panicked = false → c.quitc = some 0 → c.chans = [false] →
      c.loopPcs = [true] →
      (prun c (List.replicate k (PTid.loop 0))).hb = c.hb + k := by
  induction k with
  | zero => intro c _ _ _ _; simp [prun]
  | succ n ih =>
      intro c h1 h2 h3 h4
      have hstep : pstep c (PTid.loop 0) = { c with hb := c.hb + 1 } := by
        simp [pstep, pstepLoop, h1, h2, h3, h4]
      rw [List.replicate_succ]
      show (prun (pstep c (PTid.loop 0)) (List.replicate n (PTid.loop 0))).hb = c.hb + (n + 1)
      rw [hstep, ih { c with hb := c.hb + 1 } h1 h2 h3 h4]
      show c.hb + 1 + n = c.hb + (n + 1)
      omega

/-- In the stuck configuration reached when `Stop()` completes before the
loop goroutine first runs, every thread's step is a no-op. -/
theorem sstep_stuck (c : SConfig) (h1 : c.calls = []) (h2 : c.quitc = none)
    (h3 : c.entriesQ = []) (h4 : c.stream = []) (h5 : c.loopPc = LoopPc.atSelect)
    (h6 : c.watcherDone = none) (t : STid) : sstep c t = c := by
  cases t with
  | main => simp [sstep, sstepMain, h1]
  | loop => simp [sstep, sstepLoop, h5, h2, h3]
  | watcher => cases hw : c.watcherPc <;> simp [sstep, sstepWatcher, hw, h6, h4]

/-- No schedule moves any thread out of the stuck configuration. -/
theorem srun_stuck (σ : List STid) :
    ∀ c : SConfig, c.calls = [] → c.quitc = none → c.entriesQ = [] → c.stream = [] →
      c.loopPc = LoopPc.atSelect → c.watcherDone = none → srun c σ = c := by
  induction σ with
  | nil => intro c _ _ _ _ _ _; rfl
  | cons t ts ih =>
      intro c h1 h2 h3 h4 h5 h6
      show srun (sstep c t) ts = c
      rw [sstep_stuck c h1 h2 h3 h4 h5 h6 t]
      exact ih c h1 h2 h3 h4 h5 h6

/-- `heartBeatAux` preserves the number of registry entries. -/
theorem heartBeatAux_length (i : Instance) :
    ∀ (reg r : List RegEntry), heartBeatAux reg i = some r → r.length = reg.length := by
  intro reg
  induction reg with
  | nil => intro r h; simp [heartBeatAux] at h
  | cons e rest ih =>
      intro r h
      unfold heartBeatAux at h
      by_cases he : (e.inst.HostName == i.HostName) = true
      · rw [if_pos he] at h
        cases h
        simp
      · rw [if_neg he] at h
        cases hr : heartBeatAux rest i with
        | none => rw [hr] at h; simp at h
        | some r2 =>
            rw [hr] at h
            simp at h
            subst h
            simp [ih r2 hr]

/-- `heartBeatAux` increments the total heartbeat count by exactly one. -/
theorem heartBeatAux_total (i : Instance) :
    ∀ (reg r : List RegEntry), heartBeatAux reg i = some r →
      totalHeartbeats r = totalHeartbeats reg + 1 := by
  intro reg
  induction reg with
  | nil => intro r h; simp [heartBeatAux] at h
  | cons e rest ih =>
      intro r h
      unfold heartBeatAux at h
      by_cases he : (e.inst.HostName == i.HostName) = true
      · rw [if_pos he] at h
        cases h
        simp [totalHeartbeats]
        omega
      · rw [if_neg he] at h
        cases hr : heartBeatAux rest i with
        | none => rw [hr] at h; simp at h
        | some r2 =>
            rw [hr] at h
            simp at h
            subst h
            have := ih r2 hr
            simp [totalHeartbeats] at this ⊢
            omega

/-! ### Claim theorems -/

/-- C1: the claim says `Deregister()` while already Stopped must not
panic or double-close the stop signal (idempotence).  The code instead
executes `close(p.quitc)` on the nil field, which is a Go runtime panic:
it panics on a fresh registrar, and after a Register/Deregister cycle a
first `Deregister()` succeeds (one underlying call) but a second one
panics again; the interleaved model panics the same way. -/
theorem C1_deregister_stopped_panics :
    PeriodicRegistrar.Deregister NewPeriodicRegistrar =
      Except.error GoPanic.closeNilChannel ∧
    PeriodicRegistrar.Deregister (PeriodicRegistrar.Register NewPeriodicRegistrar).1 =
      Except.ok ({ quitc := none }, 1) ∧
    PeriodicRegistrar.Deregister { quitc := none } =
      Except.error GoPanic.closeNilChannel ∧
    (prun (pinit [PCall.deregister]) [PTid.main]).panicked = true :=
  ⟨rfl, rfl, rfl, rfl⟩

/-- C2: `Register()` while already Running (`p.quitc != nil`) is a no-op
and spawns no loop goroutine; two `Register()` calls from the fresh state
spawn exactly one loop goroutine, and that single loop performs exactly
one underlying `Register()` call per fired interval (heartbeat count
grows by `k` over `k` fired intervals, not `2k`). -/
theorem C2_register_idempotent :
    (∀ p : PeriodicRegistrar, p.quitc ≠ none →
        PeriodicRegistrar.Register p = (p, false)) ∧
    (PeriodicRegistrar.Register NewPeriodicRegistrar).2 = true ∧
    PeriodicRegistrar.Register (PeriodicRegistrar.Register NewPeriodicRegistrar).1 =
      ((PeriodicRegistrar.Register NewPeriodicRegistrar).1, false) ∧
    pRegRegCfg.loopPcs = [true] ∧
    (∀ k : Nat, (prun pRegRegCfg (List.replicate k (PTid.loop 0))).hb = k) := by
  refine ⟨?_, rfl, rfl, rfl, ?_⟩
  · intro p hp
    unfold PeriodicRegistrar.Register
    cases hq : p.quitc with
    | none => exact absurd hq hp
    | some b => simp [hq]
  · intro k
    have h := prun_heartbeats k pRegRegCfg rfl rfl rfl rfl
    have h0 : pRegRegCfg.hb + k = k := by
      show 0 + k = k
      omega
    exact h.trans h0

/-- C2 witness: `Register()` on a concrete Running state is a no-op. -/
theorem C2_register_idempotent_witness :
    PeriodicRegistrar.Register { quitc := some false } =
      ({ quitc := some false }, false) :=
  C2_register_idempotent.1 { quitc := some false } (by decide)

/-- C3 counterexample: the claim says `Deregister()` waits for the loop
to cease before calling the underlying `Deregister()` and does not
return while the loop still runs.  In the interleaving in which main
runs `Register()` and then all of `Deregister()` before the loop
goroutine is scheduled, `Deregister()` has returned (no panic, calls
exhausted, underlying `Deregister()` already called once) while the loop
goroutine is still running — and because the field was set to nil, no
schedule ever terminates it: three more loop steps perform three more
underlying `Register()` calls after `Deregister()` returned. -/
theorem C3_deregister_no_wait_cex :
    pDeregCfg.panicked = false ∧
    pDeregCfg.calls = [] ∧
    pDeregCfg.ud = 1 ∧
    pDeregCfg.loopPcs = [true] ∧
    (prun pDeregCfg (List.replicate 3 (PTid.loop 0))).hb = 3 ∧
    pLoopNeverStops pDeregCfg := by
  refine ⟨rfl, rfl, rfl, rfl, rfl, ?_⟩
  intro σ
  exact prun_preserve_of_none σ pDeregCfg rfl rfl

/-- C3 (amended): `Deregister()` in the Running state closes the quit
channel (after `Register()`, main's first `Deregister()` statement
leaves the channel closed) and calls the underlying `Deregister()`
exactly once, but returns without waiting for the loop; a loop goroutine
whose `select` runs while the field still holds the closed channel does
terminate at that step. -/
theorem C3_deregister_amended :
    (∀ p : PeriodicRegistrar, p.quitc = some false →
        PeriodicRegistrar.Deregister p = Except.ok ({ quitc := none }, 1)) ∧
    (prun (pinit [PCall.register, PCall.deregister]) [PTid.main, PTid.main]).chans =
      [true] ∧
    (∀ (c : PConfig) (i cid : Nat), c.panicked = false →
        c.loopPcs.getD i false = true → c.quitc = some cid →
        c.chans.getD cid false = true →
        (pstep c (PTid.loop i)).loopPcs = c.loopPcs.set i false) := by
  refine ⟨?_, rfl, ?_⟩
  · intro p hp
    simp [PeriodicRegistrar.Deregister, hp]
  · intro c i cid h1 h2 h3 h4
    have hd : pstep c (PTid.loop i) = pstepLoop c i := rfl
    rw [hd]
    unfold pstepLoop
    rw [h1, h2, h3]
    simp_all

/-- C3 amended witness: the amended statement at a concrete Running
registrar and a concrete configuration with a closed quit channel. -/
theorem C3_deregister_amended_witness :
    PeriodicRegistrar.Deregister { quitc := some false } =
      Except.ok ({ quitc := none }, 1) ∧
    (pstep { chans := [true], quitc := some 0, calls := [], micro := 0, panicked := false,
             loopPcs := [true], hb := 0, ud := 0 } (PTid.loop 0)).loopPcs =
      [true].set 0 false :=
  ⟨C3_deregister_amended.1 { quitc := some false } rfl,
   C3_deregister_amended.2.2 _ 0 0 rfl rfl rfl rfl⟩

/-- C4 counterexample: the claim says that after the first `Stop()` the
background watch loop is signalled and does exit.  In the interleaving in
which both `Stop()` calls complete before the loop goroutine first runs
(no panic, both calls return — the idempotence half of the claim holds),
the loop then reads the already-nilled `s.quitc` field, hands `nil` to
`client.WatchEntries` as its `done` channel, and reaches its `select`
with a nil quit channel: from that configuration no schedule ever makes
the loop exit. -/
theorem C4_stop_loop_exit_cex :
    sStopCfg.panicked = false ∧
    sStopCfg.calls = [] ∧
    sStopCfg.loopPc = LoopPc.atSelect ∧
    sLoopNeverExits sStopCfg := by
  refine ⟨rfl, rfl, rfl, ?_⟩
  intro σ
  rw [srun_stuck σ sStopCfg rfl rfl rfl rfl rfl rfl]

/-- C4 (amended): `Stop()` on a running subscriber succeeds and nils the
field, a second `Stop()` is a panic-free no-op, and the first `Stop()`
closes the quit channel; a loop goroutine whose `select` runs while the
field still holds the closed channel does exit at that step — but
because `Stop()` also nils the unsynchronised field, a loop that only
reads the field afterwards misses the signal, so exit is not guaranteed
in every interleaving. -/
theorem C4_stop_amended :
    (∀ (E : Type) (s : Subscriber E), s.quitc = some false →
        Subscriber.Stop s = Except.ok { s with quitc := none } ∧
        Subscriber.Stop ({ s with quitc := none } : Subscriber E) =
          Except.ok { s with quitc := none }) ∧
    (srun (sinit []) [STid.main, STid.main]).chans = [true] ∧
    (∀ (c : SConfig) (cid : Nat), c.panicked = false → c.loopPc = LoopPc.atSelect →
        c.quitc = some cid → c.chans.getD cid false = true →
        (sstep c STid.loop).loopPc = LoopPc.exited) := by
  refine ⟨?_, rfl, ?_⟩
  · intro E s hs
    exact ⟨by simp [Subscriber.Stop, hs], rfl⟩
  · intro c cid h1 h2 h3 h4
    have hd : sstep c STid.loop = sstepLoop c := rfl
    rw [hd]
    unfold sstepLoop
    rw [h1, h2, h3]
    simp_all

/-- C4 amended witness: the amended statement at a concrete running
subscriber and a concrete configuration with a closed quit channel. -/
theorem C4_stop_amended_witness :
    Subscriber.Stop { name := "svc", cache := Cache.New exFactory, quitc := some false } =
      Except.ok { name := "svc", cache := Cache.New exFactory, quitc := none } ∧
    (sstep { chans := [true], quitc := some 0, calls := [], micro := 0, panicked := false,
             loopPc := LoopPc.atSelect, watcherPc := WatcherPc.run, watcherDone := some 0,
             stream := [], entriesQ := [], cacheUpdates := [[]] } STid.loop).loopPc =
      LoopPc.exited :=
  ⟨(C4_stop_amended.1 String
      { name := "svc", cache := Cache.New exFactory, quitc := some false } rfl).1,
   C4_stop_amended.2.2 _ 0 rfl rfl rfl rfl⟩

/-- C5: `Register()` and `Deregister()` of the eureka registrar are
fire-and-forget: whatever the underlying registry client call returns,
the result delivered to the caller is Unit (no error can be surfaced),
and the only effect is exactly one log line — the error on failure, the
action on success. -/
theorem C5_fire_and_forget :
    ∀ r : Registrar,
      Registrar.Register r = ((),
        match r.clientRegister r.service with
        | some e => [LogEntry.logErr e]
        | none => [LogEntry.logAction "register"]) ∧
      Registrar.Deregister r = ((),
        match r.clientDeregister r.service with
        | some e => [LogEntry.logErr e]
        | none => [LogEntry.logAction "deregister"]) := by
  intro r
  constructor
  · unfold Registrar.Register
    cases r.clientRegister r.service <;> rfl
  · unfold Registrar.Deregister
    cases r.clientDeregister r.service <;> rfl

/-- C6: `Endpoints()` of the subscriber returns the cache's current
snapshot paired with a nil error, for every state of the subscriber —
in particular the fresh subscriber with its empty snapshot. -/
theorem C6_endpoints_never_fails :
    (∀ (E : Type) (s : Subscriber E),
        Subscriber.Endpoints s = (Cache.Endpoints s.cache, none)) ∧
    Subscriber.Endpoints (NewSubscriber "svc" exFactory).1 = ([], none) :=
  ⟨fun _ _ => rfl, rfl⟩

/-- C7: `static.NewPublisher` produces, in order, an endpoint for every
address on which the factory succeeds, and logs (and skips) exactly the
addresses on which it fails — a per-instance factory error never aborts
the batch; concretely, with the factory failing on "b", the batch
["a", "b", "c"] still yields the endpoints for "a" and "c". -/
theorem C7_factory_error_skips :
    (∀ (E : Type) (factory : String → Except Err E) (instances : List String),
        (static.NewPublisher factory instances).1 =
          instances.filterMap (fun i =>
            match factory i with
            | Except.ok e => some e
            | Except.error _ => none) ∧
        (static.NewPublisher factory instances).2 =
          instances.filterMap (fun i =>
            match factory i with
            | Except.ok _ => none
            | Except.error e => some (i, e))) ∧
    static.NewPublisher exFactory ["a", "b", "c"] =
      (["ep-a", "ep-c"], [("b", "boom")]) := by
  refine ⟨?_, rfl⟩
  intro E factory instances
  induction instances with
  | nil => exact ⟨rfl, rfl⟩
  | cons i rest ih =>
      cases hf : factory i with
      | ok e =>
          constructor
          · simp [static.NewPublisher, hf, List.filterMap_cons, ih.1]
          · simp [static.NewPublisher, hf, List.filterMap_cons, ih.2]
      | error e =>
          constructor
          · simp [static.NewPublisher, hf, List.filterMap_cons, ih.1]
          · simp [static.NewPublisher, hf, List.filterMap_cons, ih.2]

/-- C8: `NewSubscriber` performs the initial empty `cache.Update([])`
before the loop goroutine is started (the construction event list is
exactly update-then-loop-start), the constructed cache is the empty
cache updated with the empty address list, and `Endpoints()` on the
fresh subscriber returns the empty list with a nil error. -/
theorem C8_initial_empty_update :
    ∀ (E : Type) (name : String) (factory : String → Except Err E),
      (NewSubscriber name factory).2 =
        [SubEvent.cacheUpdate [], SubEvent.loopStart] ∧
      (NewSubscriber name factory).1.cache = (Cache.New factory).Update [] ∧
      Subscriber.Endpoints (NewSubscriber name factory).1 = ([], none) :=
  fun _ _ _ => ⟨rfl, rfl, rfl⟩

/-- C9: `client.Register` distinguishes announce from lease renewal:
when no instance is registered under the service's name (and its host
name is free) it registers the instance — a fresh entry with zero
heartbeats is appended; when the name already resolves to instances it
heart-beats the existing entry instead — the registry keeps the same
number of entries and the total heartbeat count grows by exactly one. -/
theorem C9_register_announce_vs_renew :
    (∀ (mc : MockConn) (s : Service),
        mc.instances s.Name = [] →
        hasEntry mc.registry (serviceToInstance s) = false →
        client.Register mc s =
          ({ registry := mc.registry ++ [{ inst := serviceToInstance s, heartbeats := 0 }] },
           none)) ∧
    (∀ (mc : MockConn) (s : Service) (reg : List RegEntry),
        mc.instances s.Name ≠ [] →
        heartBeatAux mc.registry (serviceToInstance s) = some reg →
        client.Register mc s = ({ registry := reg }, none) ∧
        reg.length = mc.registry.length ∧
        totalHeartbeats reg = totalHeartbeats mc.registry + 1) := by
  constructor
  · intro mc s h1 h2
    simp [client.Register, client.GetEntries, MockConn.GetApp,
          MockConn.RegisterInstance, h1, h2]
  · intro mc s reg h1 h2
    refine ⟨?_, heartBeatAux_length _ _ _ h2, heartBeatAux_total _ _ _ h2⟩
    cases hi : mc.instances s.Name with
    | nil => exact absurd hi h1
    | cons a as =>
        simp [client.Register, client.GetEntries, MockConn.GetApp,
              MockConn.HeartBeatInstance, hi, h2]

/-- C9 witness: the scenario of `TestRegister` — the first `Register` of
`testService` against the empty registry appends the instance with zero
heartbeats; the second `Register` heart-beats it to one without adding
an entry. -/
theorem C9_register_announce_vs_renew_witness :
    client.Register { registry := [] } testService =
      ({ registry := [{ inst := serviceToInstance testService, heartbeats := 0 }] }, none) ∧
    client.Register
        { registry := [{ inst := serviceToInstance testService, heartbeats := 0 }] }
        testService =
      ({ registry := [{ inst := serviceToInstance testService, heartbeats := 1 }] }, none) :=
  ⟨C9_register_announce_vs_renew.1 { registry := [] } testService rfl rfl,
   (C9_register_announce_vs_renew.2
      { registry := [{ inst := serviceToInstance testService, heartbeats := 0 }] }
      testService
      [{ inst := serviceToInstance testService, heartbeats := 1 }]
      (by decide) rfl).1⟩

/-- C10: every update received by `client.WatchEntries` produces exactly
one send to the entries sink — the empty address list when the update
carries an error (so the cache is subsequently updated to the empty set,
erasing all endpoints), `appToEntries` of the application otherwise —
and `client.Register` returns nil on the heartbeat path even when the
heartbeat call itself fails; updating any cache with the empty address
list leaves an empty snapshot. -/
theorem C10_error_update_empty_and_heartbeat_nil :
    (∀ us : List AppUpdate,
        client.WatchEntriesSends us =
          us.map (fun u =>
            match u.err with
            | some _ => []
            | none => appToEntries u.app)) ∧
    (∀ (E : Type) (c : Cache E), Cache.Endpoints (c.Update []) = []) ∧
    (∀ (mc : MockConn) (s : Service), mc.instances s.Name ≠ [] →
        (client.Register mc s).2 = none) := by
  refine ⟨?_, ?_, ?_⟩
  · intro us
    induction us with
    | nil => rfl
    | cons u rest ih => simp [client.WatchEntriesSends, ih]
  · intro E c
    simp [Cache.Update, Cache.Endpoints]
  · intro mc s h1
    unfold client.Register client.GetEntries MockConn.GetApp
    cases hi : mc.instances s.Name with
    | nil => exact absurd hi h1
    | cons a as =>
        cases hb : MockConn.HeartBeatInstance mc (serviceToInstance s) <;> simp [hb]

/-- C10 witness: a registry that resolves the service name but whose
entry is keyed by a different host name — the heartbeat call fails, yet
`client.Register` still returns nil. -/
theorem C10_error_update_empty_and_heartbeat_nil_witness :
    (client.Register
        { registry := [{ inst := { App := "name", HostName := "other", Port := 1 },
                         heartbeats := 0 }] }
        testService).2 = none :=
  C10_error_update_empty_and_heartbeat_nil.2.2
    { registry := [{ inst := { App := "name", HostName := "other", Port := 1 },
                     heartbeats := 0 }] }
    testService (by decide)
